import Mathlib

/-!
A shallow embedding of `src/app.py` (a Flask camera-snapshot service) and a
verification of its specification claims.

The embedding models:
  * the `Camera` class (`_get_latest_frame_from_rtsp`, `_update_frame`,
    `get_jpeg_frame`, `get_frame_dimensions`),
  * the HTTP route handlers `video_feed` and `handle_polygons`,
  * module-level startup (config loading and camera registration).

External libraries (cv2, json, the filesystem) are modelled at their interface:
a fetch attempt is an oracle value `RtspAttempt`, the JPEG encoder is an
arbitrary function `Frame → Option Bytes` (`cv2.imencode` returning
`ret = False` is `none`), and the polygon file on disk is modelled by its
parsed JSON content (`json.dump`/`json.loads` round-trip on the Python side is
the identity on JSON values, and `json.dump` output is never the empty string).
Side effects that matter to the claims (connection open/grab/read/release,
lock acquire/release relative to the fetch, write and encode calls) are made
observable as explicit event traces.
-/

namespace CameraApp

/-- Constant `IMAGE_REFRESH_INTERVAL_SECONDS = 3600` from src/app.py line 16. -/
def IMAGE_REFRESH_INTERVAL_SECONDS : Nat := 3600

/-- Constant `FRAMES_TO_SKIP = 10` from src/app.py line 18. -/
def FRAMES_TO_SKIP : Nat := 10

/-- A JSON value, as produced by Python's `json.load`/`json.loads`. -/
inductive Json where
  | null
  | boolVal (b : Bool)
  | num (n : Int)
  | str (s : String)
  | arr (xs : List Json)
  | obj (fields : List (String × Json))

/-- A decoded raster frame: the numpy array returned by `cap.read`, whose
`.shape` is `(height, width, channels)`; pixel data is opaque. -/
structure Frame where
  height : Nat
  width : Nat
  channels : Nat
  data : List Nat
deriving Repr, DecidableEq

/-- JPEG bytes, as produced by `buffer.tobytes()`. -/
abbrev Bytes := List Nat

/-- The external JPEG encoder `cv2.imencode('.jpg', frame)`:
`none` models `ret = False`. -/
abbrev Encoder := Frame → Option Bytes

/-- The mutable state of one `Camera` instance: `self.frame`,
`self.frame_width`, `self.frame_height` (`self.rtsp_url` is the configured
source; the lock itself is modelled by the event traces below). -/
structure Camera where
  rtsp_url : Json
  frame : Option Frame
  frame_width : Nat
  frame_height : Nat

/-- The outcome of the single `cap.read()` call of one fetch attempt:
a decoded frame, `ret = False`, or an exception raised inside the `try`. -/
inductive ReadOutcome where
  | ok (f : Frame)
  | failed
  | raised
deriving Repr, DecidableEq

/-- The external behaviour of one fetch attempt: whether
`cv2.VideoCapture(url).isOpened()` holds, and what `cap.read()` then does.
(`cv2.VideoCapture` itself returns a capture object rather than raising.) -/
structure RtspAttempt where
  openOk : Bool
  readOutcome : ReadOutcome
deriving Repr, DecidableEq

/-- Observable capture-connection events of `_get_latest_frame_from_rtsp`. -/
inductive CapEv where
  | openCap
  | grab
  | readCall
  | release
deriving Repr, DecidableEq

/-- Method `Camera._get_latest_frame_from_rtsp(skip_frames)` (src/app.py 70-100):
construct a fresh `cv2.VideoCapture`; if it did not open, return `None`
(the `finally` still calls `cap.release()` since `cap` is not `None`);
otherwise call `cap.grab()` `skip_frames` times, then `cap.read()` once, and
return the frame if `ret` else `None`; any exception is caught, printed, and
converted to `None`; `cap.release()` runs on every path in the `finally`.
Returns the result together with the connection-event trace. -/
def get_latest_frame_from_rtsp (att : RtspAttempt) (skip_frames : Nat) :
    Option Frame × List CapEv :=
  if att.openOk then
    let evs := CapEv.openCap ::
      (List.replicate skip_frames CapEv.grab ++ [CapEv.readCall, CapEv.release])
    match att.readOutcome with
    | .ok f => (some f, evs)
    | .failed => (none, evs)
    | .raised => (none, evs)
  else
    (none, [CapEv.openCap, CapEv.release])

/-- Method `Camera._update_frame` (src/app.py 102-113): fetch with
`skip_frames=FRAMES_TO_SKIP`; if a frame came back, store it under the lock
and, only when `self.frame_width == 0`, latch `(frame_height, frame_width)`
from `frame.shape`; on a failed fetch the state is left untouched (the
failure is only printed). -/
def update_frame (c : Camera) (att : RtspAttempt) : Camera :=
  match (get_latest_frame_from_rtsp att FRAMES_TO_SKIP).1 with
  | some f =>
    { c with
      frame := some f
      frame_width := if c.frame_width = 0 then f.width else c.frame_width
      frame_height := if c.frame_width = 0 then f.height else c.frame_height }
  | none => c

/-- Observable lock-discipline events: lock acquire/release, the network
fetch call, the cache write, and the JPEG encode call. -/
inductive LockEv where
  | acquire
  | unlock
  | fetchCall
  | writeFrame
  | encodeCall
deriving Repr, DecidableEq

/-- Method `Camera._update_frame` with its lock/IO event trace: the fetch
(`_get_latest_frame_from_rtsp`, a network call) happens before the `with
self.lock:` block, which contains only the frame/dimension assignments. -/
def update_frame_trace (c : Camera) (att : RtspAttempt) :
    Camera × List LockEv :=
  match (get_latest_frame_from_rtsp att FRAMES_TO_SKIP).1 with
  | some _ =>
    (update_frame c att,
     [LockEv.fetchCall, LockEv.acquire, LockEv.writeFrame, LockEv.unlock])
  | none => (c, [LockEv.fetchCall])

/-- Method `Camera.get_jpeg_frame` (src/app.py 121-126): under the lock, return
`None` if no frame is cached, otherwise `cv2.imencode('.jpg', self.frame)`
and `buffer.tobytes()` if `ret` else `None`. -/
def get_jpeg_frame (c : Camera) (enc : Encoder) : Option Bytes :=
  match c.frame with
  | none => none
  | some f => enc f

/-- Method `Camera.get_jpeg_frame` with its lock event trace: the whole body,
including the `cv2.imencode` call, executes inside `with self.lock:`. -/
def get_jpeg_frame_trace (c : Camera) (enc : Encoder) :
    Option Bytes × List LockEv :=
  match c.frame with
  | none => (none, [LockEv.acquire, LockEv.unlock])
  | some f => (enc f, [LockEv.acquire, LockEv.encodeCall, LockEv.unlock])

/-- Whether some occurrence of `target` in the trace happens while the lock
is held (`d` is the current hold depth). -/
def underLock (target : LockEv) : List LockEv → Nat → Bool
  | [], _ => false
  | LockEv.acquire :: rest, d => underLock target rest (d + 1)
  | LockEv.unlock :: rest, d => underLock target rest (d - 1)
  | e :: rest, d => (decide (e = target) && decide (0 < d)) || underLock target rest d

/-- The polling loop of `Camera.get_frame_dimensions` (src/app.py 128-134):
`obs i` is the shared `(frame_width, frame_height)` pair as read at the
loop's `i`-th poll (the writer thread may change it between polls). Returns
the `(width, height)` finally read, paired with the number of `time.sleep(0.1)`
calls performed: the loop checks `frame_width > 0`, breaks if so, else sleeps
and retries, for at most `fuel` iterations, after which the current values
are returned regardless. -/
def gfd_run (obs : Nat → Nat × Nat) : Nat → Nat → (Nat × Nat) × Nat
  | i, 0 => (obs i, 0)
  | i, fuel + 1 =>
    if 0 < (obs i).1 then (obs i, 0)
    else
      let r := gfd_run obs (i + 1) fuel
      (r.1, r.2 + 1)

/-- Method `Camera.get_frame_dimensions` against a time-varying observation of the
shared dimension fields: `for _ in range(50): if width > 0: break;
time.sleep(0.1)` and then return the current `(width, height)`. -/
def get_frame_dimensions_obs (obs : Nat → Nat × Nat) : Nat × Nat :=
  (gfd_run obs 0 50).1

/-- Number of `time.sleep(0.1)` calls `get_frame_dimensions` performs. -/
def gfd_sleeps (obs : Nat → Nat × Nat) : Nat :=
  (gfd_run obs 0 50).2

/-- Method `Camera.get_frame_dimensions` of a camera whose dimension fields do not
change during the call. -/
def get_frame_dimensions (c : Camera) : Nat × Nat :=
  get_frame_dimensions_obs (fun _ => (c.frame_width, c.frame_height))

/-- Equality of Python dict keys as used for `cameras[...]`: only hashable
JSON values (null, bool, number, string) ever become keys, and a string key
equals exactly the same string. (Python's `True == 1` key conflation never
arises for the string ids used by the routes.) -/
def jsonKeyEq : Json → Json → Bool
  | .null, .null => true
  | .boolVal a, .boolVal b => a == b
  | .num a, .num b => a == b
  | .str a, .str b => a == b
  | _, _ => false

/-- The module-level `cameras` dict: camera id key to `Camera` instance. -/
abbrev Cameras := List (Json × Camera)

/-- Dict lookup `cameras.get(camera_id)`. -/
def camerasGet : Cameras → Json → Option Camera
  | [], _ => none
  | (k, v) :: rest, key => if jsonKeyEq k key then some v else camerasGet rest key

/-- Dict store `cameras[k] = v`: overwrite an existing key or append. -/
def camerasInsert : Cameras → Json → Camera → Cameras
  | [], k, v => [(k, v)]
  | (k', v') :: rest, k, v =>
    if jsonKeyEq k' k then (k, v) :: rest else (k', v') :: camerasInsert rest k v

/-- An HTTP response body: a text page or raw bytes. -/
inductive Body where
  | text (s : String)
  | bytes (b : Bytes)
deriving Repr, DecidableEq

/-- An HTTP response: status, Content-Type, body. Flask's default mimetype
for a plain string return is text/html. -/
structure HttpResponse where
  status : Nat
  mimetype : String
  body : Body
deriving Repr, DecidableEq

/-- The route `GET /video_feed/<string:camera_id>` (src/app.py 164-175):
404 `"Kamera topilmadi"` when the id is not in `cameras`; otherwise
`get_jpeg_frame()`, with 404 `"Rasm mavjud emas"` when it returns `None`,
else 200 with the JPEG bytes and mimetype `image/jpeg`. -/
def video_feed (cams : Cameras) (enc : Encoder) (camera_id : String) :
    HttpResponse :=
  match camerasGet cams (Json.str camera_id) with
  | none => { status := 404, mimetype := "text/html", body := Body.text "Kamera topilmadi" }
  | some camera =>
    match get_jpeg_frame camera enc with
    | none => { status := 404, mimetype := "text/html", body := Body.text "Rasm mavjud emas" }
    | some b => { status := 200, mimetype := "image/jpeg", body := Body.bytes b }

/-- State of the on-disk polygon file `polygons_data/polygons_{camera_id}.json`
for one camera id: missing, existing but empty, or holding a JSON value (the
`json.loads` of its content; `json.dump` output is never empty and
`json.loads (json.dump v) = v`). -/
inductive FileState where
  | missing
  | emptyFile
  | holds (j : Json)

/-- The polygon files on disk, keyed by camera id (each id has its own file
`polygons_{camera_id}.json`, and distinct ids give distinct files). -/
abbrev PolygonStore := String → FileState

/-- The GET branch of `handle_polygons` (src/app.py 181-199): `polygons_data`
starts as `[]` and is replaced by the parsed file content when the file
exists and is non-empty; `(width, height)` is `(0, 0)` unless the camera id
is registered, in which case it is `cam.get_frame_dimensions()`; the JSON
response carries both. -/
def polygons_get (store : PolygonStore) (cams : Cameras) (camera_id : String) :
    Json :=
  let polygons_data :=
    match store camera_id with
    | .missing => Json.arr []
    | .emptyFile => Json.arr []
    | .holds j => j
  let wh :=
    match camerasGet cams (Json.str camera_id) with
    | none => (0, 0)
    | some cam => get_frame_dimensions cam
  Json.obj [("polygons", polygons_data),
            ("source_frame_size",
             Json.obj [("width", Json.num (Int.ofNat wh.1)),
                       ("height", Json.num (Int.ofNat wh.2))])]

/-- The POST branch of `handle_polygons` (src/app.py 201-208): write the
request's JSON body to the camera's polygon file with `json.dump` (whose
output is non-empty, so the file now holds the value). -/
def polygons_post (store : PolygonStore) (camera_id : String) (data : Json) :
    PolygonStore :=
  fun id => if id = camera_id then FileState.holds data else store id

/-- What `open(CONFIG_FILE)` plus `json.load` yields at startup: the file is
missing (`open` raises), unparseable (`json.load` raises), or parses to a
JSON value. -/
inductive ConfigSource where
  | missing
  | unparseable
  | parsed (j : Json)

/-- Lookup `d[key]` on a parsed JSON object (Python dict lookup by string key). -/
def lookupField : List (String × Json) → String → Option Json
  | [], _ => none
  | (k, v) :: rest, key => if k = key then some v else lookupField rest key

/-- Whether a JSON value is hashable in Python (usable as a dict key):
lists and dicts are not. -/
def hashableJson : Json → Bool
  | .arr _ => false
  | .obj _ => false
  | _ => true

/-- Evaluation of `config['id']` and `config['rtsp_url']` followed by the
dict store `cameras[id] = ...` for one config entry: succeeds only when the
entry is a JSON object carrying both keys and the id is hashable; `none`
models the KeyError/TypeError that aborts the registration loop. -/
def entryIdUrl : Json → Option (Json × Json)
  | .obj fields =>
    match lookupField fields "id", lookupField fields "rtsp_url" with
    | some i, some u => if hashableJson i then some (i, u) else none
    | _, _ => none
  | _ => none

/-- Constructor `Camera.__init__` (src/app.py 58-68): fresh state with no frame and zero
dimensions, then one immediate `_update_frame()` whose outcome the external
oracle `fetch` gives per rtsp_url (the background updater thread only repeats
`_update_frame` later). -/
def initialCamera (url : Json) (fetch : Json → RtspAttempt) : Camera :=
  update_frame
    { rtsp_url := url, frame := none, frame_width := 0, frame_height := 0 }
    (fetch url)

/-- The startup loop `for config in camera_configs: cameras[config['id']] =
Camera(config['rtsp_url'])` (src/app.py 143-144): entries register in order
until the first malformed entry, whose exception escapes the loop into the
module-level `except`, abandoning the remaining entries. -/
def registerCameras (fetch : Json → RtspAttempt) : List Json → Cameras → Cameras
  | [], acc => acc
  | e :: rest, acc =>
    match entryIdUrl e with
    | none => acc
    | some (i, u) =>
      registerCameras fetch rest (camerasInsert acc i (initialCamera u fetch))

/-- Python iteration over the loaded config value: a JSON array yields its
elements; a string yields its characters (as one-character strings); a dict
yields its keys; numbers, booleans and null are not iterable (TypeError). -/
def configEntries : Json → Option (List Json)
  | .arr xs => some xs
  | .str s => some (s.toList.map (fun c => Json.str (String.mk [c])))
  | .obj fields => some (fields.map (fun kv => Json.str kv.1))
  | _ => none

/-- Module initialization (src/app.py 138-147): `cameras = {}` and
`camera_configs = []`; inside a `try`, read and parse the config file
(assigning `camera_configs`), then register each entry; every exception is
caught and printed, so the process always continues to start. Returns the
final `(camera_configs, cameras)`. -/
def startup (src : ConfigSource) (fetch : Json → RtspAttempt) : Json × Cameras :=
  match src with
  | .missing => (Json.arr [], [])
  | .unparseable => (Json.arr [], [])
  | .parsed j =>
    match configEntries j with
    | none => (j, [])
    | some entries => (j, registerCameras fetch entries [])

/-! ### Concrete fixtures used by counterexamples and witnesses -/

/-- A concrete 480×640 3-channel frame. -/
def frame640 : Frame := { height := 480, width := 640, channels := 3, data := [7] }

/-- An encoder that encodes every frame to the bytes `[255, 216]`. -/
def encOk : Encoder := fun _ => some [255, 216]

/-- An encoder for which every encode fails (`ret = False`). -/
def encFail : Encoder := fun _ => none

/-- A camera that has cached `frame640` and latched its dimensions. -/
def camWithFrame : Camera :=
  { rtsp_url := Json.str "rtsp://x", frame := some frame640,
    frame_width := 640, frame_height := 480 }

/-- A freshly constructed camera that has never fetched a frame. -/
def camEmpty : Camera :=
  { rtsp_url := Json.str "rtsp://y", frame := none,
    frame_width := 0, frame_height := 0 }

/-- A fetch attempt whose connection fails to open. -/
def attOpenFail : RtspAttempt := { openOk := false, readOutcome := ReadOutcome.failed }

/-- A fetch attempt that opens and reads `frame640` successfully. -/
def attReadOk : RtspAttempt := { openOk := true, readOutcome := ReadOutcome.ok frame640 }

/-- A fetch attempt that opens but whose read returns `ret = False`. -/
def attReadFail : RtspAttempt := { openOk := true, readOutcome := ReadOutcome.failed }

/-- A registry holding `camWithFrame` under id `"cam1"`. -/
def camsOne : Cameras := [(Json.str "cam1", camWithFrame)]

/-- A fetch oracle under which every connection fails to open. -/
def fetchNone : Json → RtspAttempt := fun _ => attOpenFail

/-- A parsed config whose first entry is well-formed and whose second entry
is a JSON object lacking the `id` and `rtsp_url` keys. -/
def cfgMixed : Json :=
  Json.arr
    [Json.obj [("id", Json.str "cam1"), ("rtsp_url", Json.str "rtsp://x")],
     Json.obj [("oops", Json.null)]]

/-- The polygon array of the spec scenario:
`[{"points": [[0,0],[1,1]]}]`. -/
def polyExample : Json :=
  Json.arr
    [Json.obj
      [("points",
        Json.arr [Json.arr [Json.num 0, Json.num 0],
                  Json.arr [Json.num 1, Json.num 1]])]]

/-- A polygon store with no file on disk for any camera id. -/
def storeNone : PolygonStore := fun _ => FileState.missing

/-! ### Helper lemmas -/

/-- A constant observation makes `gfd_run` return exactly that pair. -/
theorem gfd_run_const (p : Nat × Nat) (i fuel : Nat) :
    (gfd_run (fun _ => p) i fuel).1 = p := by
  induction fuel generalizing i with
  | zero => rfl
  | succ n ih =>
    simp only [gfd_run]
    split
    · rfl
    · exact ih (i + 1)

/-- For a camera whose fields do not change during the call,
`get_frame_dimensions` returns the stored `(frame_width, frame_height)`. -/
theorem get_frame_dimensions_eq (c : Camera) :
    get_frame_dimensions c = (c.frame_width, c.frame_height) :=
  gfd_run_const _ 0 50

/-- Once `frame_width` is non-zero, one more fetch (successful or not)
leaves both dimensions unchanged. -/
theorem update_frame_preserves_dims (c : Camera) (att : RtspAttempt)
    (h : c.frame_width ≠ 0) :
    (update_frame c att).frame_width = c.frame_width ∧
    (update_frame c att).frame_height = c.frame_height := by
  unfold update_frame
  cases (get_latest_frame_from_rtsp att FRAMES_TO_SKIP).1 with
  | none => exact ⟨rfl, rfl⟩
  | some f => simp [h]

/-- Once `frame_width` is non-zero, any sequence of fetches leaves both
dimensions unchanged. -/
theorem foldl_update_preserves_dims (atts : List RtspAttempt) (c : Camera)
    (h : c.frame_width ≠ 0) :
    (atts.foldl update_frame c).frame_width = c.frame_width ∧
    (atts.foldl update_frame c).frame_height = c.frame_height := by
  induction atts generalizing c with
  | nil => exact ⟨rfl, rfl⟩
  | cons a rest ih =>
    have hp := update_frame_preserves_dims c a h
    have hw : (update_frame c a).frame_width ≠ 0 := by rw [hp.1]; exact h
    have hr := ih (update_frame c a) hw
    simp only [List.foldl]
    exact ⟨hr.1.trans hp.1, hr.2.trans hp.2⟩

/-! ### C1 -/

/-- C1, counterexample: at a registry holding one camera with a cached,
encodable frame, `GET /video_feed/cam1` returns a single complete JPEG
response with Content-Type `image/jpeg` — not the claimed
`multipart/x-mixed-replace; boundary=frame` chunk framing. `video_feed` is
the only video endpoint of src/app.py, and no configuration selects a
streaming mode. -/
theorem claim1_counterexample :
    video_feed camsOne encOk "cam1" =
      { status := 200, mimetype := "image/jpeg", body := Body.bytes [255, 216] } ∧
    (video_feed camsOne encOk "cam1").mimetype ≠
      "multipart/x-mixed-replace; boundary=frame" := by
  constructor
  · rfl
  · intro h
    exact absurd h (by decide)

/-- C1, amended: only the single-shot snapshot mode is implemented. For every
registry, encoder and camera id, `GET /video_feed/{camera_id}` returns either
a 404 text/html response or a 200 response whose body is one finite JPEG byte
string with Content-Type `image/jpeg`; no response ever carries the multipart
mimetype. -/
theorem claim1_single_snapshot_only (cams : Cameras) (enc : Encoder)
    (camera_id : String) :
    (((video_feed cams enc camera_id).status = 404 ∧
      (video_feed cams enc camera_id).mimetype = "text/html") ∨
     ((video_feed cams enc camera_id).status = 200 ∧
      (video_feed cams enc camera_id).mimetype = "image/jpeg" ∧
      ∃ b, (video_feed cams enc camera_id).body = Body.bytes b)) ∧
    (video_feed cams enc camera_id).mimetype ≠
      "multipart/x-mixed-replace; boundary=frame" := by
  cases h : camerasGet cams (Json.str camera_id) with
  | none =>
    have hv : video_feed cams enc camera_id =
        { status := 404, mimetype := "text/html",
          body := Body.text "Kamera topilmadi" } := by
      simp [video_feed, h]
    rw [hv]
    exact ⟨Or.inl ⟨rfl, rfl⟩, by decide⟩
  | some camera =>
    cases hj : get_jpeg_frame camera enc with
    | none =>
      have hv : video_feed cams enc camera_id =
          { status := 404, mimetype := "text/html",
            body := Body.text "Rasm mavjud emas" } := by
        simp [video_feed, h, hj]
      rw [hv]
      exact ⟨Or.inl ⟨rfl, rfl⟩, by decide⟩
    | some b =>
      have hv : video_feed cams enc camera_id =
          { status := 200, mimetype := "image/jpeg",
            body := Body.bytes b } := by
        simp [video_feed, h, hj]
      rw [hv]
      exact ⟨Or.inr ⟨rfl, rfl, b, rfl⟩, by simp⟩

/-- C1, witness: the amended statement at a concrete registry with a cached,
encodable frame. -/
theorem claim1_witness :
    (((video_feed camsOne encOk "cam1").status = 404 ∧
      (video_feed camsOne encOk "cam1").mimetype = "text/html") ∨
     ((video_feed camsOne encOk "cam1").status = 200 ∧
      (video_feed camsOne encOk "cam1").mimetype = "image/jpeg" ∧
      ∃ b, (video_feed camsOne encOk "cam1").body = Body.bytes b)) ∧
    (video_feed camsOne encOk "cam1").mimetype ≠
      "multipart/x-mixed-replace; boundary=frame" :=
  claim1_single_snapshot_only camsOne encOk "cam1"

/-! ### C2 -/

/-- C2: for every registry, encoder and camera id, `GET /video_feed/{id}`
returns 404 with the plain-text body `"Kamera topilmadi"` when the id is
unknown; 404 with the plain-text body `"Rasm mavjud emas"` (NoFrameYet),
never an error or crash, when the camera is known but its cache holds no
frame; and 200 with the JPEG bytes and Content-Type `image/jpeg` when a
frame is cached and encodable. -/
theorem claim2_video_feed_contract (cams : Cameras) (enc : Encoder)
    (camera_id : String) :
    (camerasGet cams (Json.str camera_id) = none →
      video_feed cams enc camera_id =
        { status := 404, mimetype := "text/html",
          body := Body.text "Kamera topilmadi" }) ∧
    (∀ cam, camerasGet cams (Json.str camera_id) = some cam →
      cam.frame = none →
      video_feed cams enc camera_id =
        { status := 404, mimetype := "text/html",
          body := Body.text "Rasm mavjud emas" }) ∧
    (∀ cam f b, camerasGet cams (Json.str camera_id) = some cam →
      cam.frame = some f → enc f = some b →
      video_feed cams enc camera_id =
        { status := 200, mimetype := "image/jpeg", body := Body.bytes b }) := by
  refine ⟨fun h => ?_, fun cam hc hf => ?_, fun cam f b hc hf he => ?_⟩
  · simp [video_feed, h]
  · simp [video_feed, hc, get_jpeg_frame, hf]
  · simp [video_feed, hc, get_jpeg_frame, hf, he]

/-- C2, witness: concrete instances of all three cases. -/
theorem claim2_witness :
    video_feed [] encOk "cam99" =
      { status := 404, mimetype := "text/html",
        body := Body.text "Kamera topilmadi" } ∧
    video_feed [(Json.str "cam1", camEmpty)] encOk "cam1" =
      { status := 404, mimetype := "text/html",
        body := Body.text "Rasm mavjud emas" } ∧
    video_feed camsOne encOk "cam1" =
      { status := 200, mimetype := "image/jpeg",
        body := Body.bytes [255, 216] } :=
  ⟨(claim2_video_feed_contract [] encOk "cam99").1 rfl,
   (claim2_video_feed_contract [(Json.str "cam1", camEmpty)] encOk "cam1").2.1
     camEmpty rfl rfl,
   (claim2_video_feed_contract camsOne encOk "cam1").2.2
     camWithFrame frame640 [255, 216] rfl rfl rfl⟩

/-! ### C3 -/

/-- C3: a failed fetch attempt (connection not opened, read failed, or an
exception) leaves the camera state — cached frame, width and height —
completely unchanged, so subsequent snapshot requests keep returning the
last good frame; `update_frame` is a total function, so the failure is
absorbed, never propagated to callers. -/
theorem claim3_failed_fetch_preserves (c : Camera) (att : RtspAttempt)
    (enc : Encoder)
    (h : (get_latest_frame_from_rtsp att FRAMES_TO_SKIP).1 = none) :
    update_frame c att = c ∧
    (update_frame c att).frame = c.frame ∧
    (update_frame c att).frame_width = c.frame_width ∧
    (update_frame c att).frame_height = c.frame_height ∧
    get_jpeg_frame (update_frame c att) enc = get_jpeg_frame c enc := by
  have h1 : update_frame c att = c := by simp [update_frame, h]
  exact ⟨h1, by rw [h1], by rw [h1], by rw [h1], by rw [h1]⟩

/-- C3, witness: a camera holding a good frame is untouched by a fetch whose
connection fails to open, and its snapshot bytes are unchanged. -/
theorem claim3_witness :
    update_frame camWithFrame attOpenFail = camWithFrame ∧
    get_jpeg_frame (update_frame camWithFrame attOpenFail) encOk =
      get_jpeg_frame camWithFrame encOk :=
  ⟨(claim3_failed_fetch_preserves camWithFrame attOpenFail encOk rfl).1,
   (claim3_failed_fetch_preserves camWithFrame attOpenFail encOk rfl).2.2.2.2⟩

/-! ### C4 -/

/-- C4: starting from a camera whose dimensions are not yet latched
(`frame_width = 0`), a successful fetch of an H×W frame (W positive, as the
shape of every decoded frame is) makes `get_frame_dimensions` return
`(W, H)`, and it still returns `(W, H)` after any sequence of further
successful or failed fetches — dimensions never reset on reconnect. -/
theorem claim4_dimensions_latched (c0 : Camera) (f : Frame)
    (attS : RtspAttempt) (atts : List RtspAttempt)
    (h0 : c0.frame_width = 0) (hf : 0 < f.width)
    (hread : (get_latest_frame_from_rtsp attS FRAMES_TO_SKIP).1 = some f) :
    get_frame_dimensions (update_frame c0 attS) = (f.width, f.height) ∧
    get_frame_dimensions (atts.foldl update_frame (update_frame c0 attS)) =
      (f.width, f.height) := by
  have hc1w : (update_frame c0 attS).frame_width = f.width := by
    simp [update_frame, hread, h0]
  have hc1h : (update_frame c0 attS).frame_height = f.height := by
    simp [update_frame, hread, h0]
  have hne : (update_frame c0 attS).frame_width ≠ 0 := by
    rw [hc1w]; exact Nat.pos_iff_ne_zero.mp hf
  have hfold := foldl_update_preserves_dims atts (update_frame c0 attS) hne
  constructor
  · rw [get_frame_dimensions_eq, hc1w, hc1h]
  · rw [get_frame_dimensions_eq, hfold.1, hfold.2, hc1w, hc1h]

/-- C4, witness: a fresh camera reads the 480×640 frame, reports
`(640, 480)`, and still reports `(640, 480)` after a failed fetch, a
`ret = False` read, and a successful read of a different 100×200 frame. -/
theorem claim4_witness :
    get_frame_dimensions (update_frame camEmpty attReadOk) = (640, 480) ∧
    get_frame_dimensions
      ([attOpenFail, attReadFail,
        { openOk := true,
          readOutcome := ReadOutcome.ok
            { height := 100, width := 200, channels := 3, data := [] } }].foldl
        update_frame (update_frame camEmpty attReadOk)) = (640, 480) :=
  claim4_dimensions_latched camEmpty frame640 attReadOk
    [attOpenFail, attReadFail,
     { openOk := true,
       readOutcome := ReadOutcome.ok
         { height := 100, width := 200, channels := 3, data := [] } }]
    rfl (by decide) rfl

/-! ### C5 -/

/-- C5: every call of `_get_latest_frame_from_rtsp` with the configured
`FRAMES_TO_SKIP` begins by opening a fresh capture connection and ends by
releasing it, with exactly one release, on every path; when the connection
opens it performs exactly `FRAMES_TO_SKIP = 10` buffered-frame grabs and
exactly one read, returning the frame exactly when the read succeeds; when
the open fails nothing else touches the connection and the result is `None`.
Since the release is the last event of every call, no connection is held
open between the periodic intervals. -/
theorem claim5_fetch_protocol (att : RtspAttempt) :
    ((get_latest_frame_from_rtsp att FRAMES_TO_SKIP).2.head? =
      some CapEv.openCap) ∧
    ((get_latest_frame_from_rtsp att FRAMES_TO_SKIP).2.getLast? =
      some CapEv.release) ∧
    ((get_latest_frame_from_rtsp att FRAMES_TO_SKIP).2.count CapEv.release
      = 1) ∧
    (att.openOk = true →
      (get_latest_frame_from_rtsp att FRAMES_TO_SKIP).2.count CapEv.grab
        = FRAMES_TO_SKIP ∧
      FRAMES_TO_SKIP = 10 ∧
      (get_latest_frame_from_rtsp att FRAMES_TO_SKIP).2.count CapEv.readCall
        = 1) ∧
    (att.openOk = false →
      (get_latest_frame_from_rtsp att FRAMES_TO_SKIP).2 =
        [CapEv.openCap, CapEv.release] ∧
      (get_latest_frame_from_rtsp att FRAMES_TO_SKIP).1 = none) ∧
    (∀ f, att.openOk = true → att.readOutcome = ReadOutcome.ok f →
      (get_latest_frame_from_rtsp att FRAMES_TO_SKIP).1 = some f) := by
  obtain ⟨o, ro⟩ := att
  cases o <;> cases ro <;>
    simp [get_latest_frame_from_rtsp, FRAMES_TO_SKIP]

/-- C5, witness: the successful attempt reading `frame640` produces exactly
10 grabs, one read, one final release, and returns the frame. -/
theorem claim5_witness :
    (get_latest_frame_from_rtsp attReadOk FRAMES_TO_SKIP).2.count CapEv.grab
      = FRAMES_TO_SKIP ∧
    (get_latest_frame_from_rtsp attReadOk FRAMES_TO_SKIP).2.count
      CapEv.readCall = 1 ∧
    (get_latest_frame_from_rtsp attReadOk FRAMES_TO_SKIP).2.getLast? =
      some CapEv.release ∧
    (get_latest_frame_from_rtsp attReadOk FRAMES_TO_SKIP).1 = some frame640 :=
  ⟨((claim5_fetch_protocol attReadOk).2.2.2.1 rfl).1,
   ((claim5_fetch_protocol attReadOk).2.2.2.1 rfl).2.2,
   (claim5_fetch_protocol attReadOk).2.1,
   (claim5_fetch_protocol attReadOk).2.2.2.2.2 frame640 rfl rfl⟩

/-! ### C6 -/

/-- C6, counterexample: for the concrete camera holding a cached frame, the
lock trace of `get_jpeg_frame` is acquire, encode, release — the
`cv2.imencode` call sits inside the `with self.lock:` block, so the JPEG
encoding performed when serving a snapshot happens while the lock is held,
contradicting the claim that it happens outside the lock. -/
theorem claim6_counterexample :
    (get_jpeg_frame_trace camWithFrame encOk).2 =
      [LockEv.acquire, LockEv.encodeCall, LockEv.unlock] ∧
    underLock LockEv.encodeCall (get_jpeg_frame_trace camWithFrame encOk).2 0
      = true :=
  ⟨rfl, rfl⟩

/-- C6, amended: on the writer side the lock discipline is as specified —
the network fetch of `_update_frame` always happens outside the lock, and
the cache copy-in happens inside it — but on the reader side
`get_jpeg_frame` performs the JPEG encode inside the lock whenever a frame
is cached, so the encode for a snapshot is served under the lock. -/
theorem claim6_lock_discipline (c : Camera) (enc : Encoder)
    (att : RtspAttempt) :
    underLock LockEv.fetchCall (update_frame_trace c att).2 0 = false ∧
    ((get_latest_frame_from_rtsp att FRAMES_TO_SKIP).1 ≠ none →
      underLock LockEv.writeFrame (update_frame_trace c att).2 0 = true) ∧
    (c.frame ≠ none →
      underLock LockEv.encodeCall (get_jpeg_frame_trace c enc).2 0 = true) := by
  refine ⟨?_, fun hr => ?_, fun hc => ?_⟩
  · unfold update_frame_trace
    cases (get_latest_frame_from_rtsp att FRAMES_TO_SKIP).1 <;> rfl
  · unfold update_frame_trace
    cases h : (get_latest_frame_from_rtsp att FRAMES_TO_SKIP).1 with
    | none => exact absurd h hr
    | some f => rfl
  · unfold get_jpeg_frame_trace
    cases h : c.frame with
    | none => exact absurd h hc
    | some f => rfl

/-- C6, witness: concrete instances — fetch outside the lock, write inside
it, and the snapshot encode inside it. -/
theorem claim6_witness :
    underLock LockEv.fetchCall (update_frame_trace camEmpty attReadOk).2 0
      = false ∧
    underLock LockEv.writeFrame (update_frame_trace camEmpty attReadOk).2 0
      = true ∧
    underLock LockEv.encodeCall (get_jpeg_frame_trace camWithFrame encFail).2 0
      = true :=
  ⟨(claim6_lock_discipline camEmpty encFail attReadOk).1,
   (claim6_lock_discipline camEmpty encFail attReadOk).2.1
     (fun h => Option.noConfusion h),
   (claim6_lock_discipline camWithFrame encFail attReadOk).2.2
     (fun h => Option.noConfusion h)⟩

/-! ### C7 -/

/-- The polling loop sleeps at most `fuel` times. -/
theorem gfd_run_sleeps_le (obs : Nat → Nat × Nat) (i fuel : Nat) :
    (gfd_run obs i fuel).2 ≤ fuel := by
  induction fuel generalizing i with
  | zero => exact Nat.le_refl 0
  | succ n ih =>
    simp only [gfd_run]
    split
    · exact Nat.zero_le _
    · exact Nat.succ_le_succ (ih (i + 1))

/-- The polling loop returns the observation at some poll index at most
`fuel` past its start. -/
theorem gfd_run_reads_current (obs : Nat → Nat × Nat) (i fuel : Nat) :
    ∃ j, j ≤ fuel ∧ (gfd_run obs i fuel).1 = obs (i + j) := by
  induction fuel generalizing i with
  | zero => exact ⟨0, Nat.le_refl 0, rfl⟩
  | succ n ih =>
    simp only [gfd_run]
    split
    · exact ⟨0, Nat.zero_le _, rfl⟩
    · obtain ⟨j, hj, hr⟩ := ih (i + 1)
      refine ⟨j + 1, Nat.succ_le_succ hj, ?_⟩
      rw [hr]
      exact congrArg obs (by omega)

/-- When the width never becomes positive, the loop runs its full budget and
returns the final observation. -/
theorem gfd_run_all_zero (obs : Nat → Nat × Nat)
    (h : ∀ k, (obs k).1 = 0) (i fuel : Nat) :
    gfd_run obs i fuel = (obs (i + fuel), fuel) := by
  induction fuel generalizing i with
  | zero => simp [gfd_run]
  | succ n ih =>
    simp only [gfd_run]
    rw [if_neg (by simp [h i])]
    rw [ih (i + 1)]
    refine Prod.ext ?_ rfl
    exact congrArg obs (by omega)

/-- C7: `get_frame_dimensions` never blocks indefinitely. Against any
time-varying observation of the shared width/height fields, the loop
performs at most 50 `time.sleep(0.1)` calls — at most 5 seconds in total —
and returns the `(width, height)` observed at some poll within that budget;
when the width never becomes positive it runs exactly 50 sleeps and returns
the then-current values, possibly `(0, 0)`. -/
theorem claim7_dimensions_bounded (obs : Nat → Nat × Nat) :
    gfd_sleeps obs ≤ 50 ∧
    (∃ i, i ≤ 50 ∧ get_frame_dimensions_obs obs = obs i) ∧
    ((∀ k, (obs k).1 = 0) →
      get_frame_dimensions_obs obs = obs 50 ∧ gfd_sleeps obs = 50) := by
  refine ⟨gfd_run_sleeps_le obs 0 50, ?_, fun h => ?_⟩
  · obtain ⟨j, hj, hr⟩ := gfd_run_reads_current obs 0 50
    exact ⟨j, hj, by rw [get_frame_dimensions_obs, hr]; exact congrArg obs (by omega)⟩
  · have hz := gfd_run_all_zero obs h 0 50
    constructor
    · rw [get_frame_dimensions_obs, hz]
    · rw [gfd_sleeps, hz]

/-- C7, witness: when the dimensions are never latched the call performs
exactly 50 bounded sleeps and returns `(0, 0)`. -/
theorem claim7_witness :
    gfd_sleeps (fun _ => (0, 0)) ≤ 50 ∧
    get_frame_dimensions_obs (fun _ => (0, 0)) = (0, 0) ∧
    gfd_sleeps (fun _ => (0, 0)) = 50 :=
  ⟨(claim7_dimensions_bounded (fun _ => (0, 0))).1,
   ((claim7_dimensions_bounded (fun _ => (0, 0))).2.2 (fun _ => rfl)).1,
   ((claim7_dimensions_bounded (fun _ => (0, 0))).2.2 (fun _ => rfl)).2⟩

/-! ### C8 -/

/-- C8: `GET /api/polygons/{camera_id}` before any polygon file exists
returns `polygons = []` with `source_frame_size` width and height both 0
when the dimensions are unknown (camera unregistered, or registered with
unlatched dimensions); and after a POST whose body is the JSON value `P`, a
subsequent GET returns exactly `P` as the polygons array. -/
theorem claim8_polygons_roundtrip (store : PolygonStore) (cams : Cameras)
    (camera_id : String) (P : Json) :
    (store camera_id = FileState.missing →
      camerasGet cams (Json.str camera_id) = none →
      polygons_get store cams camera_id =
        Json.obj [("polygons", Json.arr []),
                  ("source_frame_size",
                   Json.obj [("width", Json.num 0), ("height", Json.num 0)])]) ∧
    (∀ cam, store camera_id = FileState.missing →
      camerasGet cams (Json.str camera_id) = some cam →
      cam.frame_width = 0 → cam.frame_height = 0 →
      polygons_get store cams camera_id =
        Json.obj [("polygons", Json.arr []),
                  ("source_frame_size",
                   Json.obj [("width", Json.num 0), ("height", Json.num 0)])]) ∧
    (∃ w h, polygons_get (polygons_post store camera_id P) cams camera_id =
      Json.obj [("polygons", P),
                ("source_frame_size",
                 Json.obj [("width", Json.num w), ("height", Json.num h)])]) := by
  refine ⟨fun hs hc => ?_, fun cam hs hc hw hh => ?_, ?_⟩
  · simp [polygons_get, hs, hc]
  · simp [polygons_get, hs, hc, get_frame_dimensions_eq, hw, hh]
  · cases hc : camerasGet cams (Json.str camera_id) with
    | none =>
      exact ⟨0, 0, by simp [polygons_get, polygons_post, hc]⟩
    | some cam =>
      exact ⟨Int.ofNat (get_frame_dimensions cam).1,
             Int.ofNat (get_frame_dimensions cam).2,
             by simp [polygons_get, polygons_post, hc]⟩

/-- C8, witness: the spec scenario — empty store with no camera, empty store
with a dimensionless camera, and the POST-then-GET round-trip of
`[{"points": [[0,0],[1,1]]}]`. -/
theorem claim8_witness :
    polygons_get storeNone [] "cam1" =
      Json.obj [("polygons", Json.arr []),
                ("source_frame_size",
                 Json.obj [("width", Json.num 0), ("height", Json.num 0)])] ∧
    polygons_get storeNone [(Json.str "cam1", camEmpty)] "cam1" =
      Json.obj [("polygons", Json.arr []),
                ("source_frame_size",
                 Json.obj [("width", Json.num 0), ("height", Json.num 0)])] ∧
    (∃ w h, polygons_get (polygons_post storeNone "cam1" polyExample) [] "cam1" =
      Json.obj [("polygons", polyExample),
                ("source_frame_size",
                 Json.obj [("width", Json.num w), ("height", Json.num h)])]) :=
  ⟨(claim8_polygons_roundtrip storeNone [] "cam1" polyExample).1 rfl rfl,
   (claim8_polygons_roundtrip storeNone [(Json.str "cam1", camEmpty)] "cam1"
      polyExample).2.1 camEmpty rfl rfl rfl rfl,
   (claim8_polygons_roundtrip storeNone [] "cam1" polyExample).2.2⟩

/-! ### C9 -/

/-- Registration processes exactly the longest prefix of well-formed
entries: the entries after the first malformed one are never reached. -/
theorem registerCameras_stops_at_first_bad (fetch : Json → RtspAttempt)
    (l : List Json) (acc : Cameras) :
    registerCameras fetch l acc =
      registerCameras fetch
        (l.takeWhile (fun e => (entryIdUrl e).isSome)) acc := by
  induction l generalizing acc with
  | nil => rfl
  | cons e rest ih =>
    cases he : entryIdUrl e with
    | none => simp [registerCameras, he, List.takeWhile_cons]
    | some p =>
      obtain ⟨i, u⟩ := p
      simp only [registerCameras, he, List.takeWhile_cons, Option.isSome_some,
        cond_true, if_true]
      exact ih _

/-- C9, counterexample: a config that parses to a JSON array whose first
entry is well-formed and whose second is malformed registers one camera —
under id `"cam1"` — not zero, refuting the claim that malformed
configuration contents always register zero cameras. -/
theorem claim9_counterexample :
    (startup (ConfigSource.parsed cfgMixed) fetchNone).2.length = 1 ∧
    (camerasGet (startup (ConfigSource.parsed cfgMixed) fetchNone).2
      (Json.str "cam1")).isSome = true :=
  ⟨rfl, rfl⟩

/-- C9, amended: if the configuration file is missing or not parseable JSON,
startup registers zero cameras (and leaves `camera_configs` empty); if it
parses to a non-iterable value, zero cameras are registered; if it parses to
an array, exactly the longest prefix of well-formed entries is registered,
the first malformed entry aborting the rest. In every case the exception is
caught at module level, so the process continues to start (the embedded
`startup` is a total function). -/
theorem claim9_config_degradation (fetch : Json → RtspAttempt)
    (entries : List Json) (j : Json) :
    startup ConfigSource.missing fetch = (Json.arr [], []) ∧
    startup ConfigSource.unparseable fetch = (Json.arr [], []) ∧
    (configEntries j = none → (startup (ConfigSource.parsed j) fetch).2 = []) ∧
    (startup (ConfigSource.parsed (Json.arr entries)) fetch).2 =
      registerCameras fetch
        (entries.takeWhile (fun e => (entryIdUrl e).isSome)) [] := by
  refine ⟨rfl, rfl, fun h => ?_, ?_⟩
  · simp [startup, h]
  · simpa [startup, configEntries] using
      registerCameras_stops_at_first_bad fetch entries []

/-- C9, witness: a config parsing to the non-iterable number 5 registers
zero cameras, and a missing config registers zero cameras. -/
theorem claim9_witness :
    (startup (ConfigSource.parsed (Json.num 5)) fetchNone).2 = [] ∧
    (startup ConfigSource.missing fetchNone).2 = [] :=
  ⟨(claim9_config_degradation fetchNone [] (Json.num 5)).2.2.1 rfl,
   congrArg Prod.snd (claim9_config_degradation fetchNone [] (Json.num 5)).1⟩

/-! ### C10 -/

/-- C10: `get_jpeg_frame` returns `None` both when no frame has ever been
cached and when JPEG encoding of the cached frame fails, and
`GET /video_feed/{camera_id}` then produces the identical 404 response in
both cases — a JPEG-encoding failure is indistinguishable from an empty
cache at the public interface. -/
theorem claim10_encode_failure_indistinguishable (enc : Encoder)
    (cams1 cams2 : Cameras) (id1 id2 : String) (c1 c2 : Camera) (f : Frame)
    (h1 : camerasGet cams1 (Json.str id1) = some c1) (hf1 : c1.frame = none)
    (h2 : camerasGet cams2 (Json.str id2) = some c2) (hf2 : c2.frame = some f)
    (henc : enc f = none) :
    get_jpeg_frame c1 enc = none ∧
    get_jpeg_frame c2 enc = none ∧
    video_feed cams1 enc id1 = video_feed cams2 enc id2 ∧
    video_feed cams2 enc id2 =
      { status := 404, mimetype := "text/html",
        body := Body.text "Rasm mavjud emas" } := by
  have g1 : get_jpeg_frame c1 enc = none := by simp [get_jpeg_frame, hf1]
  have g2 : get_jpeg_frame c2 enc = none := by simp [get_jpeg_frame, hf2, henc]
  have v2 : video_feed cams2 enc id2 =
      { status := 404, mimetype := "text/html",
        body := Body.text "Rasm mavjud emas" } := by
    simp [video_feed, h2, g2]
  have v1 : video_feed cams1 enc id1 =
      { status := 404, mimetype := "text/html",
        body := Body.text "Rasm mavjud emas" } := by
    simp [video_feed, h1, g1]
  exact ⟨g1, g2, v1.trans v2.symm, v2⟩

/-- C10, witness: an empty-cache camera and a camera whose cached frame
fails to encode yield byte-identical 404 responses. -/
theorem claim10_witness :
    get_jpeg_frame camEmpty encFail = none ∧
    get_jpeg_frame camWithFrame encFail = none ∧
    video_feed [(Json.str "a", camEmpty)] encFail "a" =
      video_feed camsOne encFail "cam1" ∧
    video_feed camsOne encFail "cam1" =
      { status := 404, mimetype := "text/html",
        body := Body.text "Rasm mavjud emas" } :=
  claim10_encode_failure_indistinguishable encFail
    [(Json.str "a", camEmpty)] camsOne "a" "cam1" camEmpty camWithFrame
    frame640 rfl rfl rfl rfl rfl

end CameraApp
